import Mathlib

/-!
# Capability negotiation and registration handlers of the IRC client

A shallow embedding of `client/handlers.go` (package `gircclient`):
`welcomeHandler`, `capHandler` and `sendRegistration`.

* A handler receives the connection (`info["server"]`) and the parameter
  list (`info["params"]`); here these are the two arguments of the handler.
* `sc.Send(tags, pfx, command, params...)` is modelled by recording the
  message handed to `Send`, in order, in the `sent` list of the outcome. The
  handlers discard the value `Send` returns.
* A Go index out of range is a run-time panic. An `Outcome` keeps the
  connection as it was when the handler stopped, the lines sent up to that
  point and the fault, if any.
* The capability set (`sc.Caps`) is declared outside `handlers.go`. The
  handlers only call its methods `AddCaps` and `ToRequestLine`, so these are
  taken as a parameter (`CapsOps`).
-/

namespace gircclient

/-! ## Go standard library: `strings.ToUpper`, `strings.Split`, `len` -/

/-- Upper-case mapping of one rune, as `unicode.ToUpper` on the ASCII letters
and on the two runes outside ASCII whose upper case is an ASCII letter
(U+017F, long s, maps to `S`; U+0131, dotless i, maps to `I`). Every other
rune outside ASCII is mapped by Go to a rune outside ASCII; it is left as it
is here, which cannot be told apart by the comparisons of the result with
`"ACK"`, `"NAK"` and `"LS"`, the only use the handlers make of it. -/
def upperRune (c : Char) : Char :=
  if 97 ≤ c.toNat ∧ c.toNat ≤ 122 then Char.ofNat (c.toNat - 32)
  else if c.toNat = 0x17F then 'S'
  else if c.toNat = 0x131 then 'I'
  else c

/-- Go `strings.ToUpper`. -/
def ToUpper (s : String) : String := ⟨s.data.map upperRune⟩

/-- Splitting a rune list at every occurrence of `sep`. The result is never
empty: a list without `sep` gives one piece. -/
def splitRunes (sep : Char) : List Char → List (List Char)
  | [] => [[]]
  | c :: cs =>
    if c = sep then [] :: splitRunes sep cs
    else
      match splitRunes sep cs with
      | [] => [[c]]
      | w :: ws => (c :: w) :: ws

/-- Go `strings.Split(s, sep)` for a separator of one rune (the handlers
call it with `" "`). -/
def Split (s : String) (sep : Char) : List String :=
  (splitRunes sep s.data).map String.mk

/-- Go `len(s)` of a string: its length in bytes (UTF-8). -/
def len (s : String) : Nat := s.utf8ByteSize

/-! ## Data model -/

/-- A message handed to `sc.Send(tags, pfx, command, params...)`. The
handlers always pass `nil` tags and the empty source string. -/
structure Message where
  tags : Option (List (String × String))
  pfx : String
  command : String
  params : List String
  deriving DecidableEq, Repr

/-- The fields of `ServerConnection` that the handlers read or write. `κ` is
the type of the capability set `Caps`. -/
structure ServerConnection (κ : Type) where
  Nick : String
  InitialNick : String
  InitialUser : String
  InitialRealName : String
  Registered : Bool
  Caps : κ
  deriving DecidableEq, Repr

/-- The two methods of the capability set that `capHandler` calls. Both have
a pointer receiver in Go, so each may change the set: `AddCaps` returns the
new set, `ToRequestLine` returns the line together with the set after the
call. -/
structure CapsOps (κ : Type) where
  AddCaps : κ → List String → κ
  ToRequestLine : κ → String × κ

/-- A run-time panic of a handler. -/
inductive Fault where
  | indexOutOfRange (index length : Nat)
  deriving DecidableEq, Repr

/-- What running a handler leaves behind: the connection, the messages handed
to `Send` in order, and the panic that stopped it (`none` when it returned). -/
structure Outcome (κ : Type) where
  sc : ServerConnection κ
  sent : List Message
  fault : Option Fault

/-! ## The handlers -/

/-- Go `sendRegistration`: sets `Nick`, then sends NICK and USER. -/
def sendRegistration {κ : Type} (sc : ServerConnection κ) : Outcome κ :=
  let sc1 := { sc with Nick := sc.InitialNick }
  { sc := sc1
    sent := [⟨none, "", "NICK", [sc1.InitialNick]⟩,
             ⟨none, "", "USER", [sc1.InitialUser, "0", "*", sc1.InitialRealName]⟩]
    fault := none }

/-- Go `welcomeHandler`: `sc.Nick = params[0]`. -/
def welcomeHandler {κ : Type} (sc : ServerConnection κ) (params : List String) : Outcome κ :=
  match params[0]? with
  | none => ⟨sc, [], some (.indexOutOfRange 0 params.length)⟩
  | some p0 => ⟨{ sc with Nick := p0 }, [], none⟩

/-- Go `capHandler`. -/
def capHandler {κ : Type} (ops : CapsOps κ) (sc : ServerConnection κ)
    (params : List String) : Outcome κ :=
  match params[1]? with
  | none => ⟨sc, [], some (.indexOutOfRange 1 params.length)⟩
  | some p1 =>
    let subcommand := ToUpper p1
    if !sc.Registered && (subcommand == "ACK" || subcommand == "NAK") then
      sendRegistration sc
    else if subcommand == "LS" then
      if params.length > 3 then
        match params[3]? with
        | none => ⟨sc, [], some (.indexOutOfRange 3 params.length)⟩
        | some p3 => ⟨{ sc with Caps := ops.AddCaps sc.Caps (Split p3 ' ') }, [], none⟩
      else
        match params[2]? with
        | none => ⟨sc, [], some (.indexOutOfRange 2 params.length)⟩
        | some p2 =>
          let caps1 := ops.AddCaps sc.Caps (Split p2 ' ')
          let r := ops.ToRequestLine caps1
          let capsToRequest := r.1
          let sc1 := { sc with Caps := r.2 }
          let sent1 : List Message :=
            if len capsToRequest > 0 then [⟨none, "", "CAP", ["REQ", capsToRequest]⟩] else []
          let sent2 : List Message :=
            if !sc1.Registered then [⟨none, "", "CAP", ["END"]⟩] else []
          ⟨sc1, sent1 ++ sent2, none⟩
    else ⟨sc, [], none⟩

/-! ## Dispatching a sequence of events -/

/-- The two events the handlers are registered for, with their parameter
lists. -/
inductive Event where
  | CAP (params : List String)
  | RPL_WELCOME (params : List String)
  deriving DecidableEq, Repr

/-- One event is handed to the handler registered for it. -/
def dispatch {κ : Type} (ops : CapsOps κ) (sc : ServerConnection κ) : Event → Outcome κ
  | .CAP params => capHandler ops sc params
  | .RPL_WELCOME params => welcomeHandler sc params

/-- Events are handled one after the other on the same connection, each
handler returning before the next event is taken. The lines sent accumulate.
A panic of a handler ends the run: the events after it are not handled. -/
def dispatchAll {κ : Type} (ops : CapsOps κ) (sc : ServerConnection κ) :
    List Event → Outcome κ
  | [] => ⟨sc, [], none⟩
  | ev :: evs =>
    let o := dispatch ops sc ev
    match o.fault with
    | some f => ⟨o.sc, o.sent, some f⟩
    | none =>
      let o2 := dispatchAll ops o.sc evs
      ⟨o2.sc, o.sent ++ o2.sent, o2.fault⟩

/-- Number of messages with the given command among the lines sent. -/
def countCommand (cmd : String) (sent : List Message) : Nat :=
  (sent.filter (fun m => m.command == cmd)).length

/-- A CAP event whose handling reaches the first branch of `capHandler` on
a connection that is not registered: the upper-cased second parameter is
`ACK` or `NAK`. -/
def isAckNak : Event → Bool
  | .CAP params =>
    match params[1]? with
    | none => false
    | some p1 => ToUpper p1 == "ACK" || ToUpper p1 == "NAK"
  | .RPL_WELCOME _ => false

/-! ## A capability set to run the handlers on -/

/-- Lexicographic order on rune lists, by code point. -/
def runesLt : List Char → List Char → Bool
  | _, [] => false
  | [], _ :: _ => true
  | a :: as, b :: bs => a.toNat < b.toNat || (a.toNat == b.toNat && runesLt as bs)

/-- Insertion of a name in a sorted list of names without repetition. -/
def insertName (n : String) : List String → List String
  | [] => [n]
  | m :: ms =>
    if n = m then m :: ms
    else if runesLt n.data m.data then n :: m :: ms
    else m :: insertName n ms

/-- The part of a capability token before its first `=`. -/
def capName (tok : String) : String :=
  ⟨tok.data.takeWhile (fun c => c != '=')⟩

/-- Joining strings with one space between them. -/
def joinSpace : List String → String
  | [] => ""
  | [a] => a
  | a :: b :: rest => a ++ " " ++ joinSpace (b :: rest)

/-- Modelled from the spec: the Capability Set (`ClientCapabilities`), whose
declaration and methods `AddCaps` and `ToRequestLine` are not in the source
files at hand. `AddCaps` inserts each non-empty token, its `=value` suffix
dropped, into the set of supported names; `ToRequestLine` returns the
accumulated names joined by single spaces (each once, in the sorted order of
the wire test) and the empty string when there is none. -/
def specCaps : CapsOps (List String) where
  AddCaps := fun supported names =>
    names.foldl (fun acc tok => if capName tok = "" then acc else insertName (capName tok) acc)
      supported
  ToRequestLine := fun supported => (joinSpace supported, supported)

/-- The connection of the wire test (`initialiseServerConnection`), before
registration, with an empty capability set. -/
def testConnection : ServerConnection (List String) where
  Nick := ""
  InitialNick := "coolguy"
  InitialUser := "c"
  InitialRealName := "girc-go Test Client  "
  Registered := false
  Caps := []

/-! ## Letter case of the subcommand -/

/-- Two runes that differ at most in the case of an ASCII letter: they are
equal, or one is a lower-case ASCII letter (`a` to `z`, code points 97 to
122) and the other is the upper-case letter 32 code points below it (`A` to
`Z`). -/
def asciiCaseEq (a b : Char) : Bool :=
  a == b ||
  decide (97 ≤ a.toNat ∧ a.toNat ≤ 122 ∧ b.toNat + 32 = a.toNat) ||
  decide (97 ≤ b.toNat ∧ b.toNat ≤ 122 ∧ a.toNat + 32 = b.toNat)

/-- Two rune lists that differ only in the case of ASCII letters: they have
the same length and the runes at each position differ at most in the case of
an ASCII letter. -/
def sameRunesUpToAsciiCase : List Char → List Char → Bool
  | [], [] => true
  | a :: as, b :: bs => asciiCaseEq a b && sameRunesUpToAsciiCase as bs
  | _, _ => false

/-- Two strings that differ only in the case of ASCII letters. -/
def sameUpToAsciiCase (s t : String) : Bool := sameRunesUpToAsciiCase s.data t.data

/-- The string `ac` followed by U+212A KELVIN SIGN, an upper-case letter
whose lower-case form is `k` and which upper-casing leaves as it is. -/
def acKelvin : String := String.mk ['a', 'c', Char.ofNat 0x212A]

/-- The line `CAP END` as handed to `Send`. -/
def capEnd : Message := ⟨none, "", "CAP", ["END"]⟩

/-! ## Supporting lemmas -/

theorem utf8ByteSize_go_eq_zero (l : List Char) :
    String.utf8ByteSize.go l = 0 ↔ l = [] := by
  cases l with
  | nil => simp [String.utf8ByteSize.go]
  | cons c cs =>
    have h := Char.utf8Size_pos c
    simp [String.utf8ByteSize.go]
    omega

/-- Go's `len(s) > 0` holds exactly for the non-empty strings. -/
theorem len_pos_iff (s : String) : len s > 0 ↔ s ≠ "" := by
  cases s with
  | mk l =>
    have h := utf8ByteSize_go_eq_zero l
    have e : (String.mk l = "") ↔ l = [] := by
      constructor
      · intro h1
        exact congrArg String.data h1
      · intro h1
        rw [h1]
    rw [ne_eq, e]
    show String.utf8ByteSize.go l > 0 ↔ ¬ l = []
    rw [← h]
    exact Nat.pos_iff_ne_zero

theorem splitRunes_ne_nil (sep : Char) (l : List Char) : splitRunes sep l ≠ [] := by
  induction l with
  | nil => simp [splitRunes]
  | cons c cs ih =>
    simp only [splitRunes]
    split
    · simp
    · split <;> simp

/-- No piece of a split holds the separator. -/
theorem splitRunes_no_sep (sep : Char) (l : List Char) :
    ∀ w ∈ splitRunes sep l, sep ∉ w := by
  induction l with
  | nil => simp [splitRunes]
  | cons c cs ih =>
    intro w hw
    simp only [splitRunes] at hw
    split at hw
    · rcases List.mem_cons.mp hw with h | h
      · simp [h]
      · exact ih w h
    · rename_i hc
      split at hw
      · rename_i he
        exact absurd he (splitRunes_ne_nil sep cs)
      · rename_i w0 ws he
        rw [he] at ih
        rcases List.mem_cons.mp hw with h | h
        · subst h
          intro hmem
          rcases List.mem_cons.mp hmem with h1 | h1
          · exact hc h1.symm
          · exact ih w0 (List.mem_cons_self _ _) h1
        · exact ih w (List.mem_cons_of_mem _ h)

/-- Putting the pieces of a split together again, with the separator between
them, gives the list that was split. -/
theorem splitRunes_intercalate (sep : Char) (l : List Char) :
    List.intercalate [sep] (splitRunes sep l) = l := by
  induction l with
  | nil => simp [splitRunes, List.intercalate]
  | cons c cs ih =>
    simp only [splitRunes]
    split
    · rename_i hc
      subst hc
      cases he : splitRunes c cs with
      | nil => exact absurd he (splitRunes_ne_nil c cs)
      | cons w ws =>
        rw [he] at ih
        simpa [List.intercalate, List.intersperse] using ih
    · split
      · rename_i he
        exact absurd he (splitRunes_ne_nil sep cs)
      · rename_i w0 ws he
        rw [he] at ih
        cases ws with
        | nil => simpa [List.intercalate, List.intersperse] using ih
        | cons w1 ws1 => simpa [List.intercalate, List.intersperse] using ih

/-- The pieces of `Split s sep` hold no separator, and joined by the separator
they give `s` back: `Split` cuts `s` exactly at its separators. -/
theorem Split_spec (s : String) (sep : Char) :
    (∀ w ∈ Split s sep, sep ∉ w.data) ∧
    List.intercalate [sep] ((Split s sep).map String.data) = s.data := by
  constructor
  · intro w hw
    simp only [Split, List.mem_map] at hw
    obtain ⟨r, hr, rfl⟩ := hw
    exact splitRunes_no_sep sep s.data r hr
  · have h : (Split s sep).map String.data = splitRunes sep s.data := by
      simp [Split, List.map_map, Function.comp_def]
    rw [h]
    exact splitRunes_intercalate sep s.data

/-- The first branch of `capHandler`: an unregistered connection and a
subcommand that upper-cases to `ACK` or `NAK`. -/
theorem capHandler_ackNak {κ : Type} (ops : CapsOps κ) (sc : ServerConnection κ)
    (p0 p1 : String) (rest : List String)
    (hreg : sc.Registered = false)
    (hsub : ToUpper p1 = "ACK" ∨ ToUpper p1 = "NAK") :
    capHandler ops sc (p0 :: p1 :: rest) = sendRegistration sc := by
  rcases hsub with h | h <;> simp [capHandler, hreg, h]

/-- The branch of `capHandler` for a final `LS` chunk (three parameters). -/
theorem capHandler_lsFinal {κ : Type} (ops : CapsOps κ) (sc : ServerConnection κ)
    (p0 p1 p2 : String) (hsub : ToUpper p1 = "LS") :
    capHandler ops sc [p0, p1, p2] =
      ⟨{ sc with Caps := (ops.ToRequestLine (ops.AddCaps sc.Caps (Split p2 ' '))).2 },
        (if (ops.ToRequestLine (ops.AddCaps sc.Caps (Split p2 ' '))).1 ≠ ""
          then [⟨none, "", "CAP", ["REQ", (ops.ToRequestLine (ops.AddCaps sc.Caps (Split p2 ' '))).1]⟩]
          else []) ++
        (if sc.Registered = false then [⟨none, "", "CAP", ["END"]⟩] else []),
        none⟩ := by
  have h1 : ¬ ("LS" = "ACK") := by decide
  have h2 : ¬ ("LS" = "NAK") := by decide
  simp [capHandler, hsub, h1, h2, len_pos_iff]

/-- The branch of `capHandler` for an `LS` chunk followed by more chunks
(more than three parameters). -/
theorem capHandler_lsMore {κ : Type} (ops : CapsOps κ) (sc : ServerConnection κ)
    (p0 p1 p2 p3 : String) (rest : List String) (hsub : ToUpper p1 = "LS") :
    capHandler ops sc (p0 :: p1 :: p2 :: p3 :: rest) =
      ⟨{ sc with Caps := ops.AddCaps sc.Caps (Split p3 ' ') }, [], none⟩ := by
  have h1 : ¬ ("LS" = "ACK") := by decide
  have h2 : ¬ ("LS" = "NAK") := by decide
  simp [capHandler, hsub, h1, h2]

/-- No handler writes `Registered`. -/
theorem dispatch_Registered {κ : Type} (ops : CapsOps κ) (sc : ServerConnection κ) (ev : Event) :
    (dispatch ops sc ev).sc.Registered = sc.Registered := by
  cases ev with
  | CAP params =>
    simp only [dispatch, capHandler]
    repeat' split
    all_goals simp [sendRegistration]
  | RPL_WELCOME params =>
    simp only [dispatch, welcomeHandler]
    split <;> simp

/-- On an unregistered connection an event sends one `NICK` line and one
`USER` line when it is a CAP event with subcommand `ACK` or `NAK`, and none
otherwise. -/
theorem dispatch_count {κ : Type} (ops : CapsOps κ) (sc : ServerConnection κ) (ev : Event)
    (hreg : sc.Registered = false) :
    countCommand "NICK" (dispatch ops sc ev).sent = (if isAckNak ev then 1 else 0) ∧
    countCommand "USER" (dispatch ops sc ev).sent = (if isAckNak ev then 1 else 0) := by
  have h1 : ¬ ("CAP" = "NICK") := by decide
  have h2 : ¬ ("CAP" = "USER") := by decide
  have h3 : ¬ ("USER" = "NICK") := by decide
  have h4 : ¬ ("NICK" = "USER") := by decide
  cases ev with
  | RPL_WELCOME params =>
    simp only [dispatch, welcomeHandler, isAckNak]
    split <;> simp [countCommand]
  | CAP params =>
    match params with
    | [] => simp [dispatch, capHandler, isAckNak, countCommand]
    | [p0] => simp [dispatch, capHandler, isAckNak, countCommand]
    | p0 :: p1 :: rest =>
      by_cases hsub : ToUpper p1 = "ACK" ∨ ToUpper p1 = "NAK"
      · have e := capHandler_ackNak ops sc p0 p1 rest hreg hsub
        have hi : isAckNak (.CAP (p0 :: p1 :: rest)) = true := by
          simpa [isAckNak] using hsub
        simp [dispatch, e, hi, sendRegistration, countCommand, h3, h4]
      · have hi : isAckNak (.CAP (p0 :: p1 :: rest)) = false := by
          simpa [isAckNak] using hsub
        have hsub2 : ¬ ToUpper p1 = "ACK" ∧ ¬ ToUpper p1 = "NAK" := not_or.mp hsub
        simp only [dispatch, capHandler, hi]
        simp only [List.getElem?_cons_succ, List.getElem?_cons_zero]
        repeat' split
        all_goals simp_all [countCommand, List.filter_append]

/-- The lines sent over a run, counted by command, on an unregistered
connection. -/
theorem dispatchAll_count {κ : Type} (ops : CapsOps κ) (evs : List Event) :
    ∀ sc : ServerConnection κ, sc.Registered = false →
      countCommand "NICK" (dispatchAll ops sc evs).sent
        = countCommand "USER" (dispatchAll ops sc evs).sent ∧
      countCommand "NICK" (dispatchAll ops sc evs).sent ≤ (evs.filter isAckNak).length ∧
      ((dispatchAll ops sc evs).fault = none →
        countCommand "NICK" (dispatchAll ops sc evs).sent = (evs.filter isAckNak).length) := by
  induction evs with
  | nil =>
    intro sc _
    simp [dispatchAll, countCommand]
  | cons ev evs ih =>
    intro sc hreg
    have hc := dispatch_count ops sc ev hreg
    have hr := dispatch_Registered ops sc ev
    rw [hreg] at hr
    have ih2 := ih (dispatch ops sc ev).sc hr
    have hlen : ((ev :: evs).filter isAckNak).length
        = (if isAckNak ev then 1 else 0) + (evs.filter isAckNak).length := by
      by_cases hi : isAckNak ev = true
      · simp [List.filter_cons, hi]; omega
      · simp [List.filter_cons, hi]
    have happ : ∀ (cmd : String) (a b : List Message),
        countCommand cmd (a ++ b) = countCommand cmd a + countCommand cmd b := by
      intro cmd a b
      simp [countCommand, List.filter_append]
    rw [hlen]
    simp only [dispatchAll]
    split
    · rename_i f hf
      simp only [hc.1, hc.2]
      refine ⟨trivial, by omega, ?_⟩
      intro h
      cases h
    · simp only [happ, hc.1, hc.2]
      refine ⟨by omega, by omega, ?_⟩
      intro h
      have := ih2.2.2 h
      omega

/-- No run of the handlers writes `Registered`. -/
theorem dispatchAll_Registered {κ : Type} (ops : CapsOps κ) (evs : List Event) :
    ∀ sc : ServerConnection κ, (dispatchAll ops sc evs).sc.Registered = sc.Registered := by
  induction evs with
  | nil =>
    intro sc
    simp [dispatchAll]
  | cons ev evs ih =>
    intro sc
    have hr := dispatch_Registered ops sc ev
    simp only [dispatchAll]
    split
    · exact hr
    · simp only []
      rw [ih, hr]

/-- An upper-case ASCII letter is its own upper case. -/
theorem upperRune_of_upper (b : Char) (h1 : 65 ≤ b.toNat) (h2 : b.toNat ≤ 90) :
    upperRune b = b := by
  have n1 : ¬ (97 ≤ b.toNat ∧ b.toNat ≤ 122) := by omega
  have n2 : ¬ (b.toNat = 0x17F) := by omega
  have n3 : ¬ (b.toNat = 0x131) := by omega
  rw [upperRune, if_neg n1, if_neg n2, if_neg n3]

/-- A lower-case ASCII letter has the letter 32 code points below it as its
upper case. -/
theorem upperRune_of_lower (a b : Char) (h1 : 97 ≤ a.toNat) (h2 : a.toNat ≤ 122)
    (h3 : b.toNat + 32 = a.toNat) : upperRune a = b := by
  have e : a.toNat - 32 = b.toNat := by omega
  rw [upperRune, if_pos ⟨h1, h2⟩, e, Char.ofNat_toNat]

/-- Runes that differ at most in the case of an ASCII letter have the same
upper case. -/
theorem asciiCaseEq_upperRune (a b : Char) (h : asciiCaseEq a b = true) :
    upperRune a = upperRune b := by
  simp only [asciiCaseEq, Bool.or_eq_true, beq_iff_eq, decide_eq_true_eq] at h
  rcases h with (h | h) | h
  · rw [h]
  · rw [upperRune_of_lower a b h.1 h.2.1 h.2.2,
      upperRune_of_upper b (by omega) (by omega)]
  · rw [upperRune_of_lower b a h.1 h.2.1 h.2.2,
      upperRune_of_upper a (by omega) (by omega)]

/-- Rune lists that differ only in the case of ASCII letters have the same
upper case. -/
theorem sameRunesUpToAsciiCase_map :
    ∀ (l m : List Char), sameRunesUpToAsciiCase l m = true →
      l.map upperRune = m.map upperRune
  | [], [], _ => rfl
  | [], _ :: _, h => by simp [sameRunesUpToAsciiCase] at h
  | _ :: _, [], h => by simp [sameRunesUpToAsciiCase] at h
  | a :: as, b :: bs, h => by
    simp only [sameRunesUpToAsciiCase, Bool.and_eq_true] at h
    have ih := sameRunesUpToAsciiCase_map as bs h.2
    have hab := asciiCaseEq_upperRune a b h.1
    simp [hab, ih]

/-- Strings that differ only in the case of ASCII letters have the same
`ToUpper`. -/
theorem sameUpToAsciiCase_ToUpper (s t : String) (h : sameUpToAsciiCase s t = true) :
    ToUpper s = ToUpper t := by
  simp only [ToUpper]
  rw [sameRunesUpToAsciiCase_map s.data t.data h]

/-- The second parameter reaches `capHandler` only through `ToUpper`. -/
theorem capHandler_congr {κ : Type} (ops : CapsOps κ) (sc : ServerConnection κ)
    (p0 p1 q1 : String) (rest : List String) (h : ToUpper p1 = ToUpper q1) :
    capHandler ops sc (p0 :: p1 :: rest) = capHandler ops sc (p0 :: q1 :: rest) := by
  simp [capHandler, h]

/-! ## Claims -/

/-- C1 (handshake trace of the wire test): on a connection with
`Registered = false`, the CAP events with params `["*","LS","*",c1]`,
`["*","LS",c2]`, `["*","ACK",a]`, handled in that order, where the request
line `L` returned by `ToRequestLine` after both chunks were added is not
empty, send exactly `CAP REQ L`, `CAP END`, `NICK InitialNick`,
`USER InitialUser 0 * InitialRealName` and nothing else; a following 001 event
with first parameter `n` sends nothing more and leaves `Nick = n`. -/
theorem C1_handshake_trace {κ : Type} (ops : CapsOps κ) (sc : ServerConnection κ)
    (c1 c2 a n : String) (rest : List String)
    (hreg : sc.Registered = false)
    (hL : (ops.ToRequestLine
            (ops.AddCaps (ops.AddCaps sc.Caps (Split c1 ' ')) (Split c2 ' '))).1 ≠ "") :
    (dispatchAll ops sc
        [.CAP ["*", "LS", "*", c1], .CAP ["*", "LS", c2], .CAP ["*", "ACK", a]]).sent =
      [⟨none, "", "CAP", ["REQ", (ops.ToRequestLine
          (ops.AddCaps (ops.AddCaps sc.Caps (Split c1 ' ')) (Split c2 ' '))).1]⟩,
       ⟨none, "", "CAP", ["END"]⟩,
       ⟨none, "", "NICK", [sc.InitialNick]⟩,
       ⟨none, "", "USER", [sc.InitialUser, "0", "*", sc.InitialRealName]⟩] ∧
    (dispatchAll ops sc
        [.CAP ["*", "LS", "*", c1], .CAP ["*", "LS", c2], .CAP ["*", "ACK", a]]).fault = none ∧
    (dispatchAll ops sc
        [.CAP ["*", "LS", "*", c1], .CAP ["*", "LS", c2], .CAP ["*", "ACK", a],
         .RPL_WELCOME (n :: rest)]).sent =
      [⟨none, "", "CAP", ["REQ", (ops.ToRequestLine
          (ops.AddCaps (ops.AddCaps sc.Caps (Split c1 ' ')) (Split c2 ' '))).1]⟩,
       ⟨none, "", "CAP", ["END"]⟩,
       ⟨none, "", "NICK", [sc.InitialNick]⟩,
       ⟨none, "", "USER", [sc.InitialUser, "0", "*", sc.InitialRealName]⟩] ∧
    (dispatchAll ops sc
        [.CAP ["*", "LS", "*", c1], .CAP ["*", "LS", c2], .CAP ["*", "ACK", a],
         .RPL_WELCOME (n :: rest)]).fault = none ∧
    (dispatchAll ops sc
        [.CAP ["*", "LS", "*", c1], .CAP ["*", "LS", c2], .CAP ["*", "ACK", a],
         .RPL_WELCOME (n :: rest)]).sc.Nick = n := by
  obtain ⟨nick, inick, iuser, ireal, reg, caps⟩ := sc
  simp only at hreg
  subst hreg
  have hLS : ToUpper "LS" = "LS" := by decide
  have hACK : ToUpper "ACK" = "ACK" ∨ ToUpper "ACK" = "NAK" := Or.inl (by decide)
  have e1 := capHandler_lsMore ops ⟨nick, inick, iuser, ireal, false, caps⟩ "*" "LS" "*" c1 [] hLS
  have e2 := capHandler_lsFinal ops
    ⟨nick, inick, iuser, ireal, false, ops.AddCaps caps (Split c1 ' ')⟩ "*" "LS" c2 hLS
  have e3 := capHandler_ackNak ops
    ⟨nick, inick, iuser, ireal, false, (ops.ToRequestLine
        (ops.AddCaps (ops.AddCaps caps (Split c1 ' ')) (Split c2 ' '))).2⟩
    "*" "ACK" [a] rfl hACK
  simp only [] at e1 e2 e3 hL
  simp [dispatchAll, dispatch, e1, e2, e3, sendRegistration, welcomeHandler, hL]

/-- Witness of C1: the wire test, `c1 = "multi-prefix userhost-in-names sasl=PLAIN"`,
`c2 = "chghost"`, the test connection and `n = "dan"`. -/
theorem C1_handshake_trace_witness :
    testConnection.Registered = false ∧
    (specCaps.ToRequestLine (specCaps.AddCaps (specCaps.AddCaps testConnection.Caps
        (Split "multi-prefix userhost-in-names sasl=PLAIN" ' ')) (Split "chghost" ' '))).1
      = "chghost multi-prefix sasl userhost-in-names" ∧
    (dispatchAll specCaps testConnection
        [.CAP ["*", "LS", "*", "multi-prefix userhost-in-names sasl=PLAIN"],
         .CAP ["*", "LS", "chghost"],
         .CAP ["*", "ACK", "chghost multi-prefix userhost-in-names sasl"],
         .RPL_WELCOME ["dan", "Welcome to the gIRC-Go Test Network!"]]).sent =
      [⟨none, "", "CAP", ["REQ", (specCaps.ToRequestLine (specCaps.AddCaps
          (specCaps.AddCaps testConnection.Caps
            (Split "multi-prefix userhost-in-names sasl=PLAIN" ' ')) (Split "chghost" ' '))).1]⟩,
       ⟨none, "", "CAP", ["END"]⟩,
       ⟨none, "", "NICK", ["coolguy"]⟩,
       ⟨none, "", "USER", ["c", "0", "*", "girc-go Test Client  "]⟩] ∧
    (dispatchAll specCaps testConnection
        [.CAP ["*", "LS", "*", "multi-prefix userhost-in-names sasl=PLAIN"],
         .CAP ["*", "LS", "chghost"],
         .CAP ["*", "ACK", "chghost multi-prefix userhost-in-names sasl"],
         .RPL_WELCOME ["dan", "Welcome to the gIRC-Go Test Network!"]]).sc.Nick = "dan" :=
  ⟨by decide, by decide,
   (C1_handshake_trace specCaps testConnection
      "multi-prefix userhost-in-names sasl=PLAIN" "chghost"
      "chghost multi-prefix userhost-in-names sasl" "dan"
      ["Welcome to the gIRC-Go Test Network!"] (by decide) (by decide)).2.2.1,
   (C1_handshake_trace specCaps testConnection
      "multi-prefix userhost-in-names sasl=PLAIN" "chghost"
      "chghost multi-prefix userhost-in-names sasl" "dan"
      ["Welcome to the gIRC-Go Test Network!"] (by decide) (by decide)).2.2.2.2⟩

/-- C2, as stated, fails: on the unregistered test connection the event
`CAP * ACK chghost` makes `capHandler` send `NICK coolguy` and
`USER c 0 * :girc-go Test Client  ` only; that is not the sequence
`CAP END`, `NICK`, `USER`, and no `CAP END` is among the lines sent. -/
theorem C2_counterexample :
    testConnection.Registered = false ∧
    (capHandler specCaps testConnection ["*", "ACK", "chghost"]).sent =
      [⟨none, "", "NICK", ["coolguy"]⟩,
       ⟨none, "", "USER", ["c", "0", "*", "girc-go Test Client  "]⟩] ∧
    (capHandler specCaps testConnection ["*", "ACK", "chghost"]).sent ≠
      [⟨none, "", "CAP", ["END"]⟩,
       ⟨none, "", "NICK", ["coolguy"]⟩,
       ⟨none, "", "USER", ["c", "0", "*", "girc-go Test Client  "]⟩] ∧
    (⟨none, "", "CAP", ["END"]⟩ : Message) ∉
      (capHandler specCaps testConnection ["*", "ACK", "chghost"]).sent := by
  decide

/-- C2, amended: on a connection with `Registered = false`, a CAP event with
at least two parameters whose subcommand (upper-cased `params[1]`) is `ACK` or
`NAK` makes `capHandler` return without fault having sent exactly two lines,
`NICK InitialNick` then `USER InitialUser 0 * InitialRealName`; no `CAP END`
is sent in handling that event. -/
theorem C2_ackNak_sends_registration {κ : Type} (ops : CapsOps κ) (sc : ServerConnection κ)
    (p0 p1 : String) (rest : List String)
    (hreg : sc.Registered = false)
    (hsub : ToUpper p1 = "ACK" ∨ ToUpper p1 = "NAK") :
    (capHandler ops sc (p0 :: p1 :: rest)).sent =
      [⟨none, "", "NICK", [sc.InitialNick]⟩,
       ⟨none, "", "USER", [sc.InitialUser, "0", "*", sc.InitialRealName]⟩] ∧
    (capHandler ops sc (p0 :: p1 :: rest)).fault = none ∧
    (⟨none, "", "CAP", ["END"]⟩ : Message) ∉ (capHandler ops sc (p0 :: p1 :: rest)).sent := by
  rw [capHandler_ackNak ops sc p0 p1 rest hreg hsub]
  have h1 : ¬ ("CAP" = "NICK") := by decide
  have h2 : ¬ ("CAP" = "USER") := by decide
  simp [sendRegistration, h1, h2]

/-- Witness of C2 (amended): the `NAK` answer, in lower case, on the test
connection. -/
theorem C2_ackNak_sends_registration_witness :
    testConnection.Registered = false ∧
    (ToUpper "nak" = "ACK" ∨ ToUpper "nak" = "NAK") ∧
    (capHandler specCaps testConnection ["*", "nak", "chghost"]).sent =
      [⟨none, "", "NICK", ["coolguy"]⟩,
       ⟨none, "", "USER", ["c", "0", "*", "girc-go Test Client  "]⟩] :=
  ⟨by decide, by decide,
   (C2_ackNak_sends_registration specCaps testConnection "*" "nak" ["chghost"]
      (by decide) (by decide)).1⟩

/-- C3, as stated, fails: on the unregistered test connection the final
announcement `CAP * LS :` (nothing to request) makes `capHandler` send the
single line `CAP END`; `NICK` and `USER` do not follow. -/
theorem C3_counterexample :
    testConnection.Registered = false ∧
    (specCaps.ToRequestLine (specCaps.AddCaps testConnection.Caps (Split "" ' '))).1 = "" ∧
    (capHandler specCaps testConnection ["*", "LS", ""]).sent =
      [⟨none, "", "CAP", ["END"]⟩] ∧
    (capHandler specCaps testConnection ["*", "LS", ""]).sent ≠
      [⟨none, "", "CAP", ["END"]⟩,
       ⟨none, "", "NICK", ["coolguy"]⟩,
       ⟨none, "", "USER", ["c", "0", "*", "girc-go Test Client  "]⟩] := by
  decide

/-- C3, amended: on a connection with `Registered = false`, a final `LS` event
(three parameters, subcommand `LS`) for which `ToRequestLine` returns the
empty string after the chunk is added makes `capHandler` return without fault
having sent exactly one line, `CAP END`: no `CAP REQ` is sent, and neither
`NICK` nor `USER` is sent in handling that event (`Nick` is left as it was). -/
theorem C3_empty_request_sends_cap_end {κ : Type} (ops : CapsOps κ) (sc : ServerConnection κ)
    (p0 p1 p2 : String)
    (hreg : sc.Registered = false)
    (hsub : ToUpper p1 = "LS")
    (hL : (ops.ToRequestLine (ops.AddCaps sc.Caps (Split p2 ' '))).1 = "") :
    (capHandler ops sc [p0, p1, p2]).sent = [⟨none, "", "CAP", ["END"]⟩] ∧
    (capHandler ops sc [p0, p1, p2]).fault = none ∧
    (capHandler ops sc [p0, p1, p2]).sc.Nick = sc.Nick ∧
    (capHandler ops sc [p0, p1, p2]).sc.Registered = false := by
  rw [capHandler_lsFinal ops sc p0 p1 p2 hsub]
  simp [hreg, hL]

/-- Witness of C3 (amended): `CAP * LS :` on the test connection. -/
theorem C3_empty_request_sends_cap_end_witness :
    testConnection.Registered = false ∧
    ToUpper "LS" = "LS" ∧
    (specCaps.ToRequestLine (specCaps.AddCaps testConnection.Caps (Split "" ' '))).1 = "" ∧
    (capHandler specCaps testConnection ["*", "LS", ""]).sent =
      [⟨none, "", "CAP", ["END"]⟩] :=
  ⟨by decide, by decide, by decide,
   (C3_empty_request_sends_cap_end specCaps testConnection "*" "LS" ""
      (by decide) (by decide) (by decide)).1⟩

/-- C4 (welcome overrides nick): for every connection state and every 001
event whose parameter list is not empty, `welcomeHandler` returns without
fault and leaves `Nick` equal to the first parameter. -/
theorem C4_welcome_sets_nick {κ : Type} (sc : ServerConnection κ) (params : List String)
    (hne : params ≠ []) :
    (welcomeHandler sc params).fault = none ∧
    (welcomeHandler sc params).sc.Nick = params.head hne := by
  cases params with
  | nil => exact absurd rfl hne
  | cons n rest => simp [welcomeHandler]

/-- Witness of C4: `001 dan :Welcome to the gIRC-Go Test Network!` on the
test connection, whose `InitialNick` is `coolguy`. -/
theorem C4_welcome_sets_nick_witness :
    testConnection.InitialNick = "coolguy" ∧
    (welcomeHandler testConnection
      ["dan", "Welcome to the gIRC-Go Test Network!"]).sc.Nick = "dan" :=
  ⟨by decide,
   (C4_welcome_sets_nick testConnection ["dan", "Welcome to the gIRC-Go Test Network!"]
      (by decide)).2⟩

/-- C5, as stated, fails: after `001 dan :Welcome to the gIRC-Go Test Network!`
on the unregistered test connection, `welcomeHandler` has returned without
fault and `Registered` is still `false`. -/
theorem C5_counterexample :
    (welcomeHandler testConnection
      ["dan", "Welcome to the gIRC-Go Test Network!"]).fault = none ∧
    (welcomeHandler testConnection
      ["dan", "Welcome to the gIRC-Go Test Network!"]).sc.Registered = false ∧
    ¬ ((welcomeHandler testConnection
      ["dan", "Welcome to the gIRC-Go Test Network!"]).sc.Registered = true) := by
  decide

/-- C5, amended: for every connection state and every 001 event whose
parameter list is not empty, `welcomeHandler` returns without fault and leaves
`Registered` as it was; it is `true` afterwards exactly when it was `true`
before. -/
theorem C5_welcome_keeps_registered {κ : Type} (sc : ServerConnection κ)
    (params : List String) (hne : params ≠ []) :
    (welcomeHandler sc params).fault = none ∧
    (welcomeHandler sc params).sc.Registered = sc.Registered ∧
    ((welcomeHandler sc params).sc.Registered = true ↔ sc.Registered = true) := by
  cases params with
  | nil => exact absurd rfl hne
  | cons n rest => simp [welcomeHandler]

/-- Witness of C5 (amended): the welcome event on a connection that is
already registered and on the test connection, which is not. -/
theorem C5_welcome_keeps_registered_witness :
    (welcomeHandler { testConnection with Registered := true } ["dan"]).sc.Registered = true ∧
    (welcomeHandler testConnection ["dan"]).sc.Registered = false :=
  ⟨(C5_welcome_keeps_registered { testConnection with Registered := true } ["dan"]
      (by decide)).2.1,
   (C5_welcome_keeps_registered testConnection ["dan"] (by decide)).2.1⟩

/-- C6: for every connection, `sendRegistration` sets `Nick` to `InitialNick`
and sends exactly two lines in this order: `NICK` with the single parameter
`InitialNick`, then `USER` with the four parameters `InitialUser`, `"0"`,
`"*"`, `InitialRealName`, both with no tags and an empty source; it returns
without fault and leaves `InitialNick`, `InitialUser`, `InitialRealName` and
`Registered` (and the capability set) unchanged. -/
theorem C6_sendRegistration {κ : Type} (sc : ServerConnection κ) :
    (sendRegistration sc).sc.Nick = sc.InitialNick ∧
    (sendRegistration sc).sent =
      [{ tags := none, pfx := "", command := "NICK", params := [sc.InitialNick] },
       { tags := none, pfx := "", command := "USER",
         params := [sc.InitialUser, "0", "*", sc.InitialRealName] }] ∧
    (sendRegistration sc).fault = none ∧
    (sendRegistration sc).sc.InitialNick = sc.InitialNick ∧
    (sendRegistration sc).sc.InitialUser = sc.InitialUser ∧
    (sendRegistration sc).sc.InitialRealName = sc.InitialRealName ∧
    (sendRegistration sc).sc.Registered = sc.Registered ∧
    (sendRegistration sc).sc.Caps = sc.Caps := by
  simp [sendRegistration]

/-- C7, as stated, fails: `capHandler` faults on each of the three shapes of
a CAP event with too few parameters (no parameter, one parameter, two
parameters with subcommand `LS`): the index is out of range. -/
theorem C7_counterexample :
    (capHandler specCaps testConnection []).fault = some (.indexOutOfRange 1 0) ∧
    (capHandler specCaps testConnection ["*"]).fault = some (.indexOutOfRange 1 1) ∧
    (capHandler specCaps testConnection ["*", "LS"]).fault = some (.indexOutOfRange 2 2) ∧
    (capHandler specCaps testConnection []).fault ≠ none := by
  decide

/-- C7, amended: for every connection state and every CAP event whose
parameter list has length 0 or 1, or length 2 with subcommand `LS`,
`capHandler` faults with an index out of range (index 1 for length 0 or 1,
index 2 for length 2); up to the fault it has sent no line and has left the
connection state unchanged. -/
theorem C7_short_params_fault {κ : Type} (ops : CapsOps κ) (sc : ServerConnection κ)
    (params : List String)
    (hshort : params.length ≤ 1 ∨ ∃ p0 p1, params = [p0, p1] ∧ ToUpper p1 = "LS") :
    (capHandler ops sc params).fault =
      some (.indexOutOfRange (if params.length ≤ 1 then 1 else 2) params.length) ∧
    (capHandler ops sc params).sent = [] ∧
    (capHandler ops sc params).sc = sc := by
  have h1 : ¬ ("LS" = "ACK") := by decide
  have h2 : ¬ ("LS" = "NAK") := by decide
  rcases hshort with h | ⟨p0, p1, hp, hsub⟩
  · match params, h with
    | [], _ => simp [capHandler]
    | [p0], _ => simp [capHandler]
  · subst hp
    simp [capHandler, hsub, h1, h2]

/-- Witness of C7 (amended): the three shapes on the test connection. -/
theorem C7_short_params_fault_witness :
    (capHandler specCaps testConnection []).fault = some (.indexOutOfRange 1 0) ∧
    (capHandler specCaps testConnection ["*"]).sent = [] ∧
    (capHandler specCaps testConnection ["*", "ls"]).fault = some (.indexOutOfRange 2 2) ∧
    (capHandler specCaps testConnection ["*", "ls"]).sc = testConnection :=
  ⟨(C7_short_params_fault specCaps testConnection [] (Or.inl (by decide))).1,
   (C7_short_params_fault specCaps testConnection ["*"] (Or.inl (by decide))).2.1,
   (C7_short_params_fault specCaps testConnection ["*", "ls"]
      (Or.inr ⟨"*", "ls", rfl, by decide⟩)).1,
   (C7_short_params_fault specCaps testConnection ["*", "ls"]
      (Or.inr ⟨"*", "ls", rfl, by decide⟩)).2.2⟩

/-- C8, as stated, fails: starting from the unregistered test connection,
two acknowledgements in a row make the handlers send `NICK` twice and `USER`
twice; so does the sequence final `LS`, `ACK`, 001, `ACK`, in which the
welcome precedes the second acknowledgement. No handler faults. -/
theorem C8_counterexample :
    testConnection.Registered = false ∧
    (dispatchAll specCaps testConnection
      [.CAP ["*", "ACK", "chghost"], .CAP ["*", "ACK", "chghost"]]).fault = none ∧
    countCommand "NICK" (dispatchAll specCaps testConnection
      [.CAP ["*", "ACK", "chghost"], .CAP ["*", "ACK", "chghost"]]).sent = 2 ∧
    countCommand "USER" (dispatchAll specCaps testConnection
      [.CAP ["*", "ACK", "chghost"], .CAP ["*", "ACK", "chghost"]]).sent = 2 ∧
    (dispatchAll specCaps testConnection
      [.CAP ["*", "LS", "chghost"], .CAP ["*", "ACK", "chghost"],
       .RPL_WELCOME ["dan", "Welcome"], .CAP ["*", "ACK", "chghost"]]).fault = none ∧
    countCommand "NICK" (dispatchAll specCaps testConnection
      [.CAP ["*", "LS", "chghost"], .CAP ["*", "ACK", "chghost"],
       .RPL_WELCOME ["dan", "Welcome"], .CAP ["*", "ACK", "chghost"]]).sent = 2 ∧
    ¬ (countCommand "NICK" (dispatchAll specCaps testConnection
      [.CAP ["*", "ACK", "chghost"], .CAP ["*", "ACK", "chghost"]]).sent ≤ 1) := by
  decide

/-- C8, amended: over every finite sequence of CAP and 001 events handled on
a connection that starts with `Registered = false`, the handlers send one
`NICK` line and one `USER` line for each CAP event handled whose subcommand is
`ACK` or `NAK`, and none for any other event. The number of `NICK` lines equals
the number of `USER` lines, is at most the number of `ACK`/`NAK` events of the
sequence, and is equal to it when no handler faults; hence it is at most 1
when the sequence holds at most one such event. -/
theorem C8_registration_per_ackNak {κ : Type} (ops : CapsOps κ) (sc : ServerConnection κ)
    (evs : List Event) (hreg : sc.Registered = false) :
    countCommand "NICK" (dispatchAll ops sc evs).sent
      = countCommand "USER" (dispatchAll ops sc evs).sent ∧
    countCommand "NICK" (dispatchAll ops sc evs).sent ≤ (evs.filter isAckNak).length ∧
    ((dispatchAll ops sc evs).fault = none →
      countCommand "NICK" (dispatchAll ops sc evs).sent = (evs.filter isAckNak).length) ∧
    ((evs.filter isAckNak).length ≤ 1 →
      countCommand "NICK" (dispatchAll ops sc evs).sent ≤ 1 ∧
      countCommand "USER" (dispatchAll ops sc evs).sent ≤ 1) := by
  have h := dispatchAll_count ops evs sc hreg
  refine ⟨h.1, h.2.1, h.2.2, ?_⟩
  intro h1
  have h2 := h.1
  have h3 := h.2.1
  omega

/-- Witness of C8 (amended): the sequence of the wire test holds one
acknowledgement; one `NICK` line and one `USER` line are sent. -/
theorem C8_registration_per_ackNak_witness :
    testConnection.Registered = false ∧
    countCommand "NICK" (dispatchAll specCaps testConnection
      [.CAP ["*", "LS", "*", "multi-prefix userhost-in-names sasl=PLAIN"],
       .CAP ["*", "LS", "chghost"],
       .CAP ["*", "ACK", "chghost multi-prefix userhost-in-names sasl"],
       .RPL_WELCOME ["dan", "Welcome to the gIRC-Go Test Network!"]]).sent ≤ 1 ∧
    countCommand "USER" (dispatchAll specCaps testConnection
      [.CAP ["*", "LS", "*", "multi-prefix userhost-in-names sasl=PLAIN"],
       .CAP ["*", "LS", "chghost"],
       .CAP ["*", "ACK", "chghost multi-prefix userhost-in-names sasl"],
       .RPL_WELCOME ["dan", "Welcome to the gIRC-Go Test Network!"]]).sent ≤ 1 :=
  ⟨by decide,
   (C8_registration_per_ackNak specCaps testConnection
      [.CAP ["*", "LS", "*", "multi-prefix userhost-in-names sasl=PLAIN"],
       .CAP ["*", "LS", "chghost"],
       .CAP ["*", "ACK", "chghost multi-prefix userhost-in-names sasl"],
       .RPL_WELCOME ["dan", "Welcome to the gIRC-Go Test Network!"]]
      (by decide)).2.2.2 (by decide)⟩

/-- C9 (continuation chunk of `LS`): for every connection state and every CAP
event with subcommand `LS` and more than three parameters, `capHandler`
returns without fault; the capability set afterwards is the result of one
call of `AddCaps` whose argument is `params[3]` split on single spaces, no
line is sent, and `Nick` and `Registered` (and the `Initial*` fields) are
unchanged. -/
theorem C9_ls_continuation {κ : Type} (ops : CapsOps κ) (sc : ServerConnection κ)
    (p0 p1 p2 p3 : String) (rest : List String)
    (hsub : ToUpper p1 = "LS") :
    (capHandler ops sc (p0 :: p1 :: p2 :: p3 :: rest)).sc.Caps
      = ops.AddCaps sc.Caps (Split p3 ' ') ∧
    (capHandler ops sc (p0 :: p1 :: p2 :: p3 :: rest)).sent = [] ∧
    (capHandler ops sc (p0 :: p1 :: p2 :: p3 :: rest)).fault = none ∧
    (capHandler ops sc (p0 :: p1 :: p2 :: p3 :: rest)).sc.Nick = sc.Nick ∧
    (capHandler ops sc (p0 :: p1 :: p2 :: p3 :: rest)).sc.Registered = sc.Registered ∧
    (capHandler ops sc (p0 :: p1 :: p2 :: p3 :: rest)).sc
      = { sc with Caps := ops.AddCaps sc.Caps (Split p3 ' ') } := by
  rw [capHandler_lsMore ops sc p0 p1 p2 p3 rest hsub]
  simp

/-- Witness of C9: the first line of the wire test,
`CAP * LS * :multi-prefix userhost-in-names sasl=PLAIN`. -/
theorem C9_ls_continuation_witness :
    ToUpper "LS" = "LS" ∧
    Split "multi-prefix userhost-in-names sasl=PLAIN" ' '
      = ["multi-prefix", "userhost-in-names", "sasl=PLAIN"] ∧
    (capHandler specCaps testConnection
      ["*", "LS", "*", "multi-prefix userhost-in-names sasl=PLAIN"]).sc.Caps
      = specCaps.AddCaps testConnection.Caps
          (Split "multi-prefix userhost-in-names sasl=PLAIN" ' ') ∧
    (capHandler specCaps testConnection
      ["*", "LS", "*", "multi-prefix userhost-in-names sasl=PLAIN"]).sent = [] :=
  ⟨by decide, by decide,
   (C9_ls_continuation specCaps testConnection "*" "LS" "*"
      "multi-prefix userhost-in-names sasl=PLAIN" [] (by decide)).1,
   (C9_ls_continuation specCaps testConnection "*" "LS" "*"
      "multi-prefix userhost-in-names sasl=PLAIN" [] (by decide)).2.1⟩

/-- C10, as stated, fails: on the unregistered test connection the final
announcement `CAP * LS :chghost`, whose request line `chghost` is not empty,
makes `capHandler` send two lines, `CAP REQ chghost` and then `CAP END`, not
the single line `CAP REQ chghost`. -/
theorem C10_counterexample :
    testConnection.Registered = false ∧
    (specCaps.ToRequestLine (specCaps.AddCaps testConnection.Caps (Split "chghost" ' '))).1
      = "chghost" ∧
    (capHandler specCaps testConnection ["*", "LS", "chghost"]).sent =
      [⟨none, "", "CAP", ["REQ", "chghost"]⟩, ⟨none, "", "CAP", ["END"]⟩] ∧
    (capHandler specCaps testConnection ["*", "LS", "chghost"]).sent ≠
      [⟨none, "", "CAP", ["REQ", "chghost"]⟩] := by
  decide

/-- C10, amended: on a connection with `Registered = false`, a CAP event with
three parameters and subcommand `LS` for which `ToRequestLine`, computed after
`AddCaps` of `params[2]` split on spaces, returns a non-empty string `L` makes
`capHandler` return without fault having sent exactly two lines: `CAP REQ L`,
then `CAP END`. -/
theorem C10_final_ls_requests {κ : Type} (ops : CapsOps κ) (sc : ServerConnection κ)
    (p0 p1 p2 : String)
    (hreg : sc.Registered = false)
    (hsub : ToUpper p1 = "LS")
    (hL : (ops.ToRequestLine (ops.AddCaps sc.Caps (Split p2 ' '))).1 ≠ "") :
    (capHandler ops sc [p0, p1, p2]).sent =
      [⟨none, "", "CAP", ["REQ", (ops.ToRequestLine (ops.AddCaps sc.Caps (Split p2 ' '))).1]⟩,
       ⟨none, "", "CAP", ["END"]⟩] ∧
    (capHandler ops sc [p0, p1, p2]).fault = none := by
  rw [capHandler_lsFinal ops sc p0 p1 p2 hsub]
  simp [hreg, hL]

/-- Witness of C10 (amended): `CAP * LS :chghost` on the test connection. -/
theorem C10_final_ls_requests_witness :
    testConnection.Registered = false ∧
    (capHandler specCaps testConnection ["*", "LS", "chghost"]).sent =
      [⟨none, "", "CAP", ["REQ", (specCaps.ToRequestLine
          (specCaps.AddCaps testConnection.Caps (Split "chghost" ' '))).1]⟩,
       ⟨none, "", "CAP", ["END"]⟩] :=
  ⟨by decide,
   (C10_final_ls_requests specCaps testConnection "*" "LS" "chghost"
      (by decide) (by decide) (by decide)).1⟩

/-- C11 (`Registered` never reverts to false): on a connection with
`Registered = true`, the state after `capHandler`, after `welcomeHandler` and
after `sendRegistration` still has `Registered = true`, for every parameter
list (also when the handler faults), and so has the state after every
sequence of handled events; along every sequence, once `Registered` is `true`
after the first events it is `true` after any further events. -/
theorem C11_registered_never_reverts {κ : Type} (ops : CapsOps κ) (sc : ServerConnection κ)
    (params : List String) (evs : List Event) (hreg : sc.Registered = true) :
    (capHandler ops sc params).sc.Registered = true ∧
    (welcomeHandler sc params).sc.Registered = true ∧
    (sendRegistration sc).sc.Registered = true ∧
    (dispatchAll ops sc evs).sc.Registered = true ∧
    (∀ (sc0 : ServerConnection κ) (evs1 evs2 : List Event),
      (dispatchAll ops sc0 evs1).sc.Registered = true →
      (dispatchAll ops sc0 (evs1 ++ evs2)).sc.Registered = true) := by
  refine ⟨?_, ?_, ?_, ?_, ?_⟩
  · have h := dispatch_Registered ops sc (.CAP params)
    simp only [dispatch] at h
    rw [h, hreg]
  · have h := dispatch_Registered ops sc (.RPL_WELCOME params)
    simp only [dispatch] at h
    rw [h, hreg]
  · simp [sendRegistration, hreg]
  · rw [dispatchAll_Registered, hreg]
  · intro sc0 evs1 evs2 h
    rw [dispatchAll_Registered] at h
    rw [dispatchAll_Registered, h]

/-- Witness of C11: a registered connection, an acknowledgement, and the
sequence of the wire test. -/
theorem C11_registered_never_reverts_witness :
    ({ testConnection with Registered := true } : ServerConnection (List String)).Registered
      = true ∧
    (capHandler specCaps { testConnection with Registered := true }
      ["*", "ACK", "chghost"]).sc.Registered = true ∧
    (dispatchAll specCaps { testConnection with Registered := true }
      [.CAP ["*", "LS", "chghost"], .CAP ["*", "ACK", "chghost"],
       .RPL_WELCOME ["dan", "Welcome"]]).sc.Registered = true :=
  ⟨by decide,
   (C11_registered_never_reverts specCaps { testConnection with Registered := true }
      ["*", "ACK", "chghost"] [] (by decide)).1,
   (C11_registered_never_reverts specCaps { testConnection with Registered := true } []
      [.CAP ["*", "LS", "chghost"], .CAP ["*", "ACK", "chghost"],
       .RPL_WELCOME ["dan", "Welcome"]] (by decide)).2.2.2.1⟩

/-- C12 (protocol-sequence tolerance): on a connection with
`Registered = false`, whatever its capability set holds and whatever
`AddCaps` and `ToRequestLine` do, a CAP event with at least two parameters and
subcommand `ACK` or `NAK` makes `capHandler` return without fault, with `Nick`
set to `InitialNick` and the lines `NICK InitialNick`, then
`USER InitialUser 0 * InitialRealName` sent; the capability set is not
touched. -/
theorem C12_ackNak_tolerated {κ : Type} (ops : CapsOps κ) (sc : ServerConnection κ)
    (p0 p1 : String) (rest : List String)
    (hreg : sc.Registered = false)
    (hsub : ToUpper p1 = "ACK" ∨ ToUpper p1 = "NAK") :
    (capHandler ops sc (p0 :: p1 :: rest)).fault = none ∧
    (capHandler ops sc (p0 :: p1 :: rest)).sc.Nick = sc.InitialNick ∧
    (capHandler ops sc (p0 :: p1 :: rest)).sent =
      [⟨none, "", "NICK", [sc.InitialNick]⟩,
       ⟨none, "", "USER", [sc.InitialUser, "0", "*", sc.InitialRealName]⟩] ∧
    (capHandler ops sc (p0 :: p1 :: rest)).sc.Caps = sc.Caps := by
  rw [capHandler_ackNak ops sc p0 p1 rest hreg hsub]
  simp [sendRegistration]

/-- Witness of C12: `CAP * ACK :sasl` on the test connection, to which
nothing was advertised and which requested nothing. -/
theorem C12_ackNak_tolerated_witness :
    testConnection.Registered = false ∧
    testConnection.Caps = [] ∧
    (capHandler specCaps testConnection ["*", "ACK", "sasl"]).fault = none ∧
    (capHandler specCaps testConnection ["*", "ACK", "sasl"]).sc.Nick = "coolguy" ∧
    (capHandler specCaps testConnection ["*", "ACK", "sasl"]).sent =
      [⟨none, "", "NICK", ["coolguy"]⟩,
       ⟨none, "", "USER", ["c", "0", "*", "girc-go Test Client  "]⟩] :=
  ⟨by decide, by decide,
   (C12_ackNak_tolerated specCaps testConnection "*" "ACK" ["sasl"]
      (by decide) (Or.inl (by decide))).1,
   (C12_ackNak_tolerated specCaps testConnection "*" "ACK" ["sasl"]
      (by decide) (Or.inl (by decide))).2.1,
   (C12_ackNak_tolerated specCaps testConnection "*" "ACK" ["sasl"]
      (by decide) (Or.inl (by decide))).2.2.1⟩

/-- C13 (`ACK`/`NAK` only matter before registration): on a connection with
`Registered = true`, a CAP event with at least two parameters whose
upper-cased subcommand is not `LS` (`ACK` and `NAK` included) makes
`capHandler` return without fault, having sent no line and left the whole
connection state unchanged. -/
theorem C13_registered_non_ls_noop {κ : Type} (ops : CapsOps κ) (sc : ServerConnection κ)
    (p0 p1 : String) (rest : List String)
    (hreg : sc.Registered = true)
    (hsub : ToUpper p1 ≠ "LS") :
    (capHandler ops sc (p0 :: p1 :: rest)).sent = [] ∧
    (capHandler ops sc (p0 :: p1 :: rest)).sc = sc ∧
    (capHandler ops sc (p0 :: p1 :: rest)).fault = none := by
  simp [capHandler, hreg, hsub]

/-- Witness of C13: `ACK` and `NAK` on a registered connection. -/
theorem C13_registered_non_ls_noop_witness :
    ToUpper "ACK" ≠ "LS" ∧ ToUpper "nak" ≠ "LS" ∧
    (capHandler specCaps { testConnection with Registered := true }
      ["*", "ACK", "chghost"]).sent = [] ∧
    (capHandler specCaps { testConnection with Registered := true }
      ["*", "nak", "chghost"]).sc = { testConnection with Registered := true } :=
  ⟨by decide, by decide,
   (C13_registered_non_ls_noop specCaps { testConnection with Registered := true }
      "*" "ACK" ["chghost"] (by decide) (by decide)).1,
   (C13_registered_non_ls_noop specCaps { testConnection with Registered := true }
      "*" "nak" ["chghost"] (by decide) (by decide)).2.1⟩

/-- C14: for every connection state and every CAP event on which `capHandler`
does not fault, the line `CAP END` is among the lines sent if and only if the
upper-cased subcommand is `LS`, the parameter list has at most three entries
and `Registered` is false; when it is sent, it is sent exactly once and it is
the last line sent for that event. -/
theorem C14_cap_end_iff {κ : Type} (ops : CapsOps κ) (sc : ServerConnection κ)
    (params : List String)
    (hok : (capHandler ops sc params).fault = none) :
    (capEnd ∈ (capHandler ops sc params).sent ↔
      ((∃ p1, params[1]? = some p1 ∧ ToUpper p1 = "LS") ∧
        params.length ≤ 3 ∧ sc.Registered = false)) ∧
    (capEnd ∈ (capHandler ops sc params).sent →
      (capHandler ops sc params).sent.count capEnd = 1 ∧
      (capHandler ops sc params).sent.getLast? = some capEnd) := by
  have h1 : ¬ ("LS" = "ACK") := by decide
  have h2 : ¬ ("LS" = "NAK") := by decide
  have h3 : ¬ ("ACK" = "LS") := by decide
  have h4 : ¬ ("NAK" = "LS") := by decide
  have h5 : ¬ ("NICK" = "CAP") := by decide
  have h6 : ¬ ("USER" = "CAP") := by decide
  have h7 : ¬ ("REQ" = "END") := by decide
  match params, hok with
  | [], hok => simp [capHandler] at hok
  | [p0], hok => simp [capHandler] at hok
  | p0 :: p1 :: rest, hok =>
    by_cases hLS : ToUpper p1 = "LS"
    · match rest, hok with
      | [], hok => simp [capHandler, hLS, h1, h2] at hok
      | [p2], _ =>
        rw [capHandler_lsFinal ops sc p0 p1 p2 hLS]
        cases hr : sc.Registered <;>
          by_cases hL : (ops.ToRequestLine (ops.AddCaps sc.Caps (Split p2 ' '))).1 = "" <;>
          simp [capEnd, hLS, hL, h7, List.count_cons]
      | p2 :: p3 :: rest2, _ =>
        rw [capHandler_lsMore ops sc p0 p1 p2 p3 rest2 hLS]
        simp
    · cases hr : sc.Registered
      · by_cases hA : ToUpper p1 = "ACK" ∨ ToUpper p1 = "NAK"
        · rw [capHandler_ackNak ops sc p0 p1 rest hr hA]
          simp [sendRegistration, capEnd, hLS, h5, h6]
        · have hA2 := not_or.mp hA
          simp [capHandler, hr, hLS, hA2.1, hA2.2]
      · simp [capHandler, hr, hLS]

/-- Witness of C14: the final chunk `CAP * LS :chghost` on the test
connection sends `CAP REQ chghost` and then, once and last, `CAP END`. -/
theorem C14_cap_end_iff_witness :
    (capHandler specCaps testConnection ["*", "LS", "chghost"]).fault = none ∧
    capEnd ∈ (capHandler specCaps testConnection ["*", "LS", "chghost"]).sent ∧
    (capHandler specCaps testConnection ["*", "LS", "chghost"]).sent.count capEnd = 1 ∧
    (capHandler specCaps testConnection ["*", "LS", "chghost"]).sent.getLast? = some capEnd :=
  ⟨by decide,
   (C14_cap_end_iff specCaps testConnection ["*", "LS", "chghost"] (by decide)).1.mpr
      ⟨⟨"LS", rfl, by decide⟩, by decide, by decide⟩,
   ((C14_cap_end_iff specCaps testConnection ["*", "LS", "chghost"] (by decide)).2
      (by decide)).1,
   ((C14_cap_end_iff specCaps testConnection ["*", "LS", "chghost"] (by decide)).2
      (by decide)).2⟩

/-- C15, as stated, fails: the parameter lists `["*", "ack", "chghost"]` and
`["*", "ac" followed by U+212A, "chghost"]` have the same length and differ
only in the third rune of the second parameter, `k` (U+006B) in one and the
KELVIN SIGN (U+212A), the upper-case letter whose lower-case form is `k`, in
the other. Upper-casing turns `ack` into `ACK` and leaves the KELVIN SIGN as
it is, so on the unregistered test connection `capHandler` sends `NICK` and
`USER` and sets `Nick` for the first list, and sends nothing and leaves `Nick`
alone for the second. -/
theorem C15_counterexample :
    ["*", "ack", "chghost"].length = ["*", acKelvin, "chghost"].length ∧
    "ack".data.map Char.toNat = [0x61, 0x63, 0x6B] ∧
    acKelvin.data.map Char.toNat = [0x61, 0x63, 0x212A] ∧
    ToUpper "ack" = "ACK" ∧ ToUpper acKelvin ≠ "ACK" ∧
    (capHandler specCaps testConnection ["*", "ack", "chghost"]).sent =
      [⟨none, "", "NICK", ["coolguy"]⟩,
       ⟨none, "", "USER", ["c", "0", "*", "girc-go Test Client  "]⟩] ∧
    (capHandler specCaps testConnection ["*", acKelvin, "chghost"]).sent = [] ∧
    (capHandler specCaps testConnection ["*", "ack", "chghost"]).sent ≠
      (capHandler specCaps testConnection ["*", acKelvin, "chghost"]).sent ∧
    (capHandler specCaps testConnection ["*", "ack", "chghost"]).sc ≠
      (capHandler specCaps testConnection ["*", acKelvin, "chghost"]).sc := by
  decide

/-- C15, amended (the subcommand is matched without regard to the case of
ASCII letters): for every connection state and every two parameter lists of
the same length, at least two, that are equal but for the case of ASCII
letters (`a` to `z` against `A` to `Z`, position by position) in the second
parameter, `capHandler` gives the same outcome: the same lines sent, the same
resulting connection state, the same fault if any. -/
theorem C15_subcommand_ascii_case_insensitive {κ : Type} (ops : CapsOps κ)
    (sc : ServerConnection κ) (p0 p1 q1 : String) (rest : List String)
    (hcase : sameUpToAsciiCase p1 q1 = true) :
    (capHandler ops sc (p0 :: p1 :: rest)).sent = (capHandler ops sc (p0 :: q1 :: rest)).sent ∧
    (capHandler ops sc (p0 :: p1 :: rest)).sc = (capHandler ops sc (p0 :: q1 :: rest)).sc ∧
    (capHandler ops sc (p0 :: p1 :: rest)).fault
      = (capHandler ops sc (p0 :: q1 :: rest)).fault := by
  rw [capHandler_congr ops sc p0 p1 q1 rest (sameUpToAsciiCase_ToUpper p1 q1 hcase)]
  exact ⟨rfl, rfl, rfl⟩

/-- Witness of C15 (amended): `ack` and `ACK`, `ls` and `LS`, `Nak` and `nAK`
on the test connection; `ack` and `ac` followed by the KELVIN SIGN are not
related, nor are `ls` and `l` followed by U+017F. -/
theorem C15_subcommand_ascii_case_insensitive_witness :
    sameUpToAsciiCase "ack" "ACK" = true ∧ sameUpToAsciiCase "ls" "LS" = true ∧
    sameUpToAsciiCase "Nak" "nAK" = true ∧
    sameUpToAsciiCase "ack" acKelvin = false ∧
    sameUpToAsciiCase "ls" (String.mk ['l', Char.ofNat 0x17F]) = false ∧
    (capHandler specCaps testConnection ["*", "ack", "chghost"]).sent
      = (capHandler specCaps testConnection ["*", "ACK", "chghost"]).sent ∧
    (capHandler specCaps testConnection ["*", "ls", "chghost"]).sent
      = (capHandler specCaps testConnection ["*", "LS", "chghost"]).sent ∧
    (capHandler specCaps testConnection ["*", "ls", "chghost"]).sc
      = (capHandler specCaps testConnection ["*", "LS", "chghost"]).sc ∧
    (capHandler specCaps testConnection ["*", "Nak", "chghost"]).sent
      = (capHandler specCaps testConnection ["*", "nAK", "chghost"]).sent :=
  ⟨by decide, by decide, by decide, by decide, by decide,
   (C15_subcommand_ascii_case_insensitive specCaps testConnection "*" "ack" "ACK" ["chghost"]
      (by decide)).1,
   (C15_subcommand_ascii_case_insensitive specCaps testConnection "*" "ls" "LS" ["chghost"]
      (by decide)).1,
   (C15_subcommand_ascii_case_insensitive specCaps testConnection "*" "ls" "LS" ["chghost"]
      (by decide)).2.1,
   (C15_subcommand_ascii_case_insensitive specCaps testConnection "*" "Nak" "nAK" ["chghost"]
      (by decide)).1⟩

/-- C16 (`welcomeHandler` changes nothing but `Nick`): for every connection
state and every 001 event with a non-empty parameter list, `welcomeHandler`
returns without fault, sends no line and leaves `InitialNick`, `InitialUser`,
`InitialRealName`, `Registered` and the capability set exactly as they were;
on the empty parameter list it faults with an index out of range (index 0,
length 0), having sent nothing and changed nothing. -/
theorem C16_welcome_frame {κ : Type} (sc : ServerConnection κ) (n : String)
    (rest : List String) :
    ((welcomeHandler sc (n :: rest)).fault = none ∧
     (welcomeHandler sc (n :: rest)).sent = [] ∧
     (welcomeHandler sc (n :: rest)).sc.InitialNick = sc.InitialNick ∧
     (welcomeHandler sc (n :: rest)).sc.InitialUser = sc.InitialUser ∧
     (welcomeHandler sc (n :: rest)).sc.InitialRealName = sc.InitialRealName ∧
     (welcomeHandler sc (n :: rest)).sc.Registered = sc.Registered ∧
     (welcomeHandler sc (n :: rest)).sc.Caps = sc.Caps ∧
     (welcomeHandler sc (n :: rest)).sc = { sc with Nick := n }) ∧
    ((welcomeHandler sc []).fault = some (.indexOutOfRange 0 0) ∧
     (welcomeHandler sc []).sent = [] ∧
     (welcomeHandler sc []).sc = sc) := by
  simp [welcomeHandler]

end gircclient
